import Mathlib

/-!
Verification development for the `rename` utility (src/src/rename.py).

The Python module is shallowly embedded below.  Conventions of the
embedding:

* Python strings are Lean `String` values; the character-level helpers
  work on `String.data` (a `List Char`), which keeps every definition
  kernel-computable.  Case folding (`str.lower`, `str.upper`,
  `re.IGNORECASE`) is modelled on the ASCII range, which covers every
  name the tool manipulates in the claims under study.
* The compiled anchored regex `re.compile("^%s$" % regex, flags)` is an
  external engine; it is abstracted as an oracle
  `rmatch : String -> Option ReMatch` giving, per entry, the match object
  (whole text and capture groups).  The optional exclusion regex is the
  oracle `excMatch : Option (String -> Bool)` (`None` models the falsy
  empty `except_regex`).
* The filesystem is the structure `FS`: the `os.listdir(".")` snapshot,
  `os.path.exists`, and `os.stat(...).st_ino` (`none` models an
  `OSError`).  `os.path.abspath(f).lower()` for plain directory entries
  under one fixed working directory reduces to lower-casing the entry
  name, which is how `is_same_file` is modelled.
* Exceptions: `ValueError` is caught by `rename_regex`/`rename_simple`
  and mapped to status 1; every other exception falls to the generic
  handler and status 2.  `RenameError` enumerates the `ValueError`s the
  module raises plus `py e` for foreign exceptions (`IndexError`,
  `TypeError`, `re.error`, `OSError`, `KeyError`).
* `int(math.log(v, 10)) + 1` is modelled with the exact logarithm, i.e.
  as the decimal digit count of `v` for `v >= 1` (CPython computes the
  float `log`, which can be off by one at a few arguments near powers of
  ten; no claim below depends on those points), and as the
  `ValueError: math domain error` for `v <= 0`.
* The stderr warnings about `os.sep` occurring in the inputs
  (rename.py lines 220-233) and the choice of output streams under
  `quiet` are pure reporting and are not modelled; reported operations
  and notes are modelled structurally (`Effect`, `Note`).
-/

/-- Exceptions that are not `ValueError`: they escape the
`except ValueError` handler of `rename_regex` / `rename_simple` and hit
the generic `except Exception` branch (status code 2). -/
inductive PyError where
  /-- Models `IndexError`, e.g. `match.group(n)` with `n` out of range
  (CPython raises `IndexError: no such group`). -/
  | indexError
  /-- Models `TypeError`, e.g. `str.replace` called with `None` (a capture
  group that did not participate in the match). -/
  | typeError
  /-- Models `re.error`, e.g. a bad escape or an invalid group reference in a
  replacement template. -/
  | reError (msg : String)
  /-- Models `OSError` from `os.stat` on a missing file. -/
  | osError
  /-- Models `KeyError`, e.g. `TRANSFORM[self.xform]` with an unknown key. -/
  | keyError
  deriving Repr, DecidableEq

/-- The exceptions `Renamer._rename` can raise.  The first four are
`ValueError`s (status code 1 in the catching wrappers); `py e` wraps any
other exception (status code 2). -/
inductive RenameError where
  /-- The `ValueError("Multiple files (...) would be written to ...")`,
  rename.py lines 262-266. -/
  | collision (target : String) (sources : List String)
  /-- The `ValueError("Target ... already exists for source ...")`,
  rename.py lines 267-270. -/
  | targetExists (target source : String)
  /-- The `ValueError("Unknown special reference: ...")`, rename.py
  line 170. -/
  | unknownReference (ref : String)
  /-- The `ValueError("math domain error")` raised by `math.log` on a
  non-positive argument, rename.py line 173. -/
  | mathDomain
  /-- Any non-`ValueError` exception. -/
  | py (e : PyError)
  deriving Repr, DecidableEq

/-- Status code produced by the `except` ladder of `rename_regex` and
`rename_simple` (rename.py lines 107-114 and 147-154): `ValueError`
maps to 1, anything else to 2. -/
def RenameError.status : RenameError → Nat
  | .py _ => 2
  | _ => 1

instance {ε α : Type} [DecidableEq ε] [DecidableEq α] : DecidableEq (Except ε α) :=
  fun x y =>
  match x, y with
  | .error a, .error b =>
    if h : a = b then .isTrue (by rw [h])
    else .isFalse (fun hh => h (Except.error.inj hh))
  | .ok a, .ok b =>
    if h : a = b then .isTrue (by rw [h])
    else .isFalse (fun hh => h (Except.ok.inj hh))
  | .error _, .ok _ => .isFalse (fun hh => Except.noConfusion hh)
  | .ok _, .error _ => .isFalse (fun hh => Except.noConfusion hh)

/-- ASCII lower-casing of one character (models `str.lower` on the
ASCII range). -/
def asciiLowerChar (c : Char) : Char :=
  if 'A' ≤ c ∧ c ≤ 'Z' then Char.ofNat (c.toNat + 32) else c

/-- ASCII upper-casing of one character (models `str.upper` on the
ASCII range). -/
def asciiUpperChar (c : Char) : Char :=
  if 'a' ≤ c ∧ c ≤ 'z' then Char.ofNat (c.toNat - 32) else c

/-- Models Python `str.lower` (ASCII range). -/
def pyLower (s : String) : String := String.mk (s.data.map asciiLowerChar)

/-- Models Python `str.upper` (ASCII range). -/
def pyUpper (s : String) : String := String.mk (s.data.map asciiUpperChar)

/-- Decimal rendering of a natural number (via `Nat.toDigits`, which is
fuel-structural and hence kernel-computable). -/
def natDec (n : Nat) : String := String.mk (Nat.toDigits 10 n)

/-- Models Python `"%d" % v`: the signed decimal rendering of an
integer. -/
def intDec (v : Int) : String :=
  if v < 0 then "-" ++ natDec v.natAbs else natDec v.toNat

/-- Models Python string repetition `s * k` (empty for `k <= 0`). -/
def pyRepeat (s : String) (k : Int) : String :=
  String.mk (List.flatten (List.replicate k.toNat s.data))

/-- Numeric value of a list of ASCII digits (used for `int(num)` where
`num` was produced by the `\d+` group of `MATCH_REGEX`). -/
def pyDigitsVal (ds : List Char) : Nat :=
  ds.foldl (fun a c => a * 10 + (c.toNat - '0'.toNat)) 0

/-- Octal value of a list of octal digits. -/
def octVal (ds : List Char) : Nat :=
  ds.foldl (fun a c => a * 8 + (c.toNat - '0'.toNat)) 0

/-- Is the character an ASCII octal digit. -/
def isOct (c : Char) : Bool := '0' ≤ c ∧ c ≤ '7'

/-- Is the character ASCII whitespace accepted by `int(str)`. -/
def isPySpace (c : Char) : Bool :=
  c = ' ' ∨ c = '\t' ∨ c = '\n' ∨ c = '\x0d' ∨ c = '\x0b' ∨ c = '\x0c'

/-- Digit run with optional single underscores between digits, as
accepted by Python `int` (e.g. `int("1_0") = 10`).  `none` on anything
else. -/
def pyParseDigits : List Char → Option Nat
  | [] => none
  | c :: cs =>
    if c.isDigit then go (c.toNat - '0'.toNat) cs else none
where
  go (acc : Nat) : List Char → Option Nat
    | [] => some acc
    | '_' :: d :: rest =>
      if d.isDigit then go (acc * 10 + (d.toNat - '0'.toNat)) rest else none
    | '_' :: [] => none
    | d :: rest =>
      if d.isDigit then go (acc * 10 + (d.toNat - '0'.toNat)) rest else none

/-- Models Python `int(str)`: strip whitespace, optional sign, digits
(with optional grouping underscores).  `none` models the `ValueError`
this raises on any other input. -/
def pyParseInt (s : String) : Option Int :=
  let core := ((s.data.dropWhile isPySpace).reverse.dropWhile isPySpace).reverse
  match core with
  | '+' :: ds => (pyParseDigits ds).map Int.ofNat
  | '-' :: ds => (pyParseDigits ds).map (fun n => -(n : Int))
  | ds => (pyParseDigits ds).map Int.ofNat

/-- The `TRANSFORM` dispatch table (rename.py lines 39-43): keys `""`,
`"lower"`, `"upper"`; `none` models the `KeyError` on any other key. -/
def TRANSFORM (key : String) : Option (String → String) :=
  if key = "" then some (fun x => x)
  else if key = "lower" then some pyLower
  else if key = "upper" then some pyUpper
  else none

/-- Abstraction of a successful `re.Match` for the anchored pattern:
the whole matched text (`match.group()`, which for the `^...$` pattern
is the entry name) and the capture groups 1..n, `none` marking a group
that did not participate. -/
structure ReMatch where
  group0 : String
  groups : List (Option String)
  deriving Repr, DecidableEq

/-- Models `match.group(n)`: group 0 is the whole match, groups 1..n
come from the list, anything else raises `IndexError` (this includes
negative numbers and numbers past the group count). -/
def ReMatch.group (m : ReMatch) (n : Int) : Except PyError (Option String) :=
  if n = 0 then .ok (some m.group0)
  else if n < 0 then .error .indexError
  else
    match m.groups.get? (n.toNat - 1) with
    | some o => .ok o
    | none => .error .indexError

/-- How many digits `--index-digits` asked for: the sentinel `"auto"`
or a fixed integer (the Python attribute is `str | int` compared
against `"auto"` and otherwise passed through `int(...)`; the
conversion is assumed successful here, as it is for every CLI value the
claims exercise). -/
inductive IndexDigits where
  | auto
  | fixed (k : Int)
  deriving Repr, DecidableEq

/-- The `Renamer` object (rename.py lines 48-71).  `targets` is the
instance attribute `self.targets` initialised once in `__init__` and
mutated (never cleared) by `_rename`; it is an insertion-ordered
mapping destination name to list of source names, like a Python
`dict[str, list[str]]`. -/
structure Renamer where
  test : Bool := false
  case_insensitive : Bool := false
  xform : String := ""
  quiet : Bool := false
  copy : Bool := false
  index_first : Int := 1
  index_step : Int := 1
  index_digits : IndexDigits := .auto
  index_pad_with : String := "0"
  targets : List (String × List String) := []
  deriving Repr, DecidableEq

/-- Models `Renamer.index` (rename.py lines 195-196):
`index_first + number * index_step`. -/
def Renamer.index (r : Renamer) (number : Int) : Int :=
  r.index_first + number * r.index_step

/-- Models `int(math.log(v, 10)) + 1` from rename.py line 173 with the
exact logarithm: the decimal digit count of `v` for `v >= 1`, and the
`ValueError: math domain error` for `v <= 0`.  (CPython evaluates the
float `math.log(v, 10)`, which can differ by one at a few arguments
near exact powers of ten; no claim below is settled at such a point.) -/
def autoLogWidth (v : Int) : Except RenameError Nat :=
  if v ≤ 0 then .error .mathDomain else .ok (natDec v.toNat).length

/-- The digit width used for one `\(index)` substitution (rename.py
lines 172-175): `auto` computes from `self.index(max_indexes)`,
otherwise the configured fixed number is used. -/
def Renamer.resolveDigits (r : Renamer) (max_indexes : Nat) : Except RenameError Int :=
  match r.index_digits with
  | .auto => (autoLogWidth (r.index max_indexes)).map Int.ofNat
  | .fixed k => .ok k

/-- The `\(index)` replacement string (rename.py lines 171-180):
`"%d" % self.index(index)`, left-padded with `index_pad_with` repeated
`pad_count` times when `pad_count = digits - len(replacement)` is
positive. -/
def Renamer.renderIndex (r : Renamer) (index : Nat) (max_indexes : Nat) :
    Except RenameError String :=
  let repl := intDec (r.index index)
  match r.resolveDigits max_indexes with
  | .error e => .error e
  | .ok digits =>
    let pad_count : Int := digits - repl.length
    .ok (if 0 < pad_count then pyRepeat r.index_pad_with pad_count ++ repl else repl)

/-- Scanner state for `MATCH_REGEX = re.compile(r"(\\)(\d+)")`:
outside any candidate, just after a backslash, or inside a digit run
that followed a backslash. -/
inductive BrState where
  | plain
  | slash
  | token (acc : List Char)
  deriving Repr, DecidableEq

/-- One left-to-right pass implementing
`MATCH_REGEX.findall(target)`: every non-overlapping occurrence of a
backslash followed by a maximal run of digits, in order.  (The regex
engine, failing to match at a backslash not followed by a digit,
retries at the next character; the `slash` state transitions encode
exactly that.) -/
def brScan : BrState → List Char → List (List Char)
  | .plain, [] => []
  | .plain, c :: cs => if c = '\\' then brScan .slash cs else brScan .plain cs
  | .slash, [] => []
  | .slash, c :: cs =>
    if c.isDigit then brScan (.token [c]) cs
    else if c = '\\' then brScan .slash cs
    else brScan .plain cs
  | .token acc, [] => [acc]
  | .token acc, c :: cs =>
    if c.isDigit then brScan (.token (acc ++ [c])) cs
    else if c = '\\' then acc :: brScan .slash cs
    else acc :: brScan .plain cs

/-- Models `MATCH_REGEX.findall(target)` restricted to the digit runs (the
first group of each pair is always the backslash). -/
def findBackrefs (target : String) : List (List Char) :=
  brScan .plain target.data

/-- Scanner state for
`MATCH_REGEX_BRACKETS = re.compile(r"(\\\()([^)]+)(\))")`: outside any
candidate, just after a backslash, or inside the `[^)]+` body after a
literal backslash-parenthesis. -/
inductive BkState where
  | plain
  | slash
  | inRef (acc : List Char)
  deriving Repr, DecidableEq

/-- One left-to-right pass implementing
`MATCH_REGEX_BRACKETS.findall(target)`: every non-overlapping
occurrence of a backslash, an opening parenthesis, one or more
non-closing-parenthesis characters, and a closing parenthesis; the
middle group is returned.  A candidate with an empty body (`\()`)
fails, and scanning resumes after the closing parenthesis, which is
equivalent to the engine retrying at each skipped character (none of
which can start a match). -/
def bkScan : BkState → List Char → List (List Char)
  | .plain, [] => []
  | .plain, c :: cs => if c = '\\' then bkScan .slash cs else bkScan .plain cs
  | .slash, [] => []
  | .slash, c :: cs =>
    if c = '(' then bkScan (.inRef []) cs
    else if c = '\\' then bkScan .slash cs
    else bkScan .plain cs
  | .inRef _, [] => []
  | .inRef acc, c :: cs =>
    if c = ')' then
      if acc.isEmpty then bkScan .plain cs else acc :: bkScan .plain cs
    else bkScan (.inRef (acc ++ [c])) cs

/-- Models `MATCH_REGEX_BRACKETS.findall(target)` restricted to the reference
bodies (first and third groups are always the fixed brackets). -/
def findBrackets (target : String) : List (List Char) :=
  bkScan .plain target.data

/-- Fuel-indexed core of Python `str.replace` for a non-empty pattern:
left-to-right, non-overlapping, all occurrences.  The fuel only needs
to dominate the length of the subject (each step consumes at least one
character), and the wrapper passes exactly that. -/
def replFuel (pat rep : List Char) : Nat → List Char → List Char
  | 0, l => l
  | Nat.succ f, l =>
    if pat ≠ [] ∧ pat.isPrefixOf l then rep ++ replFuel pat rep f (l.drop pat.length)
    else
      match l with
      | [] => []
      | c :: cs => c :: replFuel pat rep f cs

/-- Python `str.replace` with an empty pattern inserts the replacement
at every boundary (`"ab".replace("", "X") = "XaXbX"`). -/
def interReplace (rep : List Char) : List Char → List Char
  | [] => rep
  | c :: cs => rep ++ c :: interReplace rep cs

/-- Models Python `s.replace(pat, rep)` (the two call sites in
`_apply_match` always pass a non-empty `pat`). -/
def pyReplace (s pat rep : String) : String :=
  if pat.data.isEmpty then String.mk (interReplace rep.data s.data)
  else String.mk (replFuel pat.data rep.data s.data.length s.data)

/-- The first loop of `_apply_match` (rename.py lines 162-163): for
each digit run found by `MATCH_REGEX.findall(target)`, replace every
occurrence of the backslash-digits substring with the corresponding
capture group.  `match.group` past the group count raises `IndexError`;
a group that did not participate is `None` and `str.replace` then
raises `TypeError`. -/
def applyBackrefs (m : ReMatch) : List (List Char) → String → Except RenameError String
  | [], acc => .ok acc
  | num :: rest, acc =>
    match m.group (pyDigitsVal num : Nat) with
    | .error e => .error (.py e)
    | .ok none => .error (.py .typeError)
    | .ok (some s) => applyBackrefs m rest (pyReplace acc (String.mk ('\\' :: num)) s)

/-- The body of the second loop of `_apply_match` (rename.py lines
166-180) for one bracketed reference: `int(ref)` succeeding selects a
capture group (its `IndexError` on an out-of-range number is NOT the
caught `ValueError`); otherwise `ref.lower() != "index"` raises the
unknown-reference `ValueError`, and a reference lower-casing to
`index` produces the padded sequence value. -/
def Renamer.resolveBracketRef (r : Renamer) (m : ReMatch) (index max_indexes : Nat)
    (ref : String) : Except RenameError String :=
  match pyParseInt ref with
  | some n =>
    match m.group n with
    | .error e => .error (.py e)
    | .ok none => .error (.py .typeError)
    | .ok (some s) => .ok s
  | none =>
    if pyLower ref = "index" then r.renderIndex index max_indexes
    else .error (.unknownReference ref)

/-- The second loop of `_apply_match` (rename.py lines 164-181): for
each reference body found by `MATCH_REGEX_BRACKETS.findall(target)`,
resolve it and replace every occurrence of the full bracketed token. -/
def Renamer.applyBrackets (r : Renamer) (m : ReMatch) (index max_indexes : Nat) :
    List (List Char) → String → Except RenameError String
  | [], acc => .ok acc
  | ref :: rest, acc =>
    match r.resolveBracketRef m index max_indexes (String.mk ref) with
    | .error e => .error e
    | .ok repl =>
      r.applyBrackets m index max_indexes rest
        (pyReplace acc (String.mk ('\\' :: '(' :: (ref ++ [')']))) repl)

/-- Models `Renamer._apply_match` (rename.py lines 158-182): replace the
`\N` backreferences, then the `\(ref)` tokens, then apply the
configured transform (`TRANSFORM[self.xform]`; an unknown key raises
`KeyError`). -/
def Renamer.applyMatch (r : Renamer) (m : ReMatch) (target : String)
    (index max_indexes : Nat) : Except RenameError String :=
  match applyBackrefs m (findBackrefs target) target with
  | .error e => .error e
  | .ok afterNums =>
    match r.applyBrackets m index max_indexes (findBrackets target) afterNums with
    | .error e => .error e
    | .ok move_to =>
      match TRANSFORM r.xform with
      | some tf => .ok (tf move_to)
      | none => .error (.py .keyError)

/-- Background for `Renamer._apply_replace` (rename.py lines 184-193): it hands
`substring_to` to `re.Pattern.sub`, which parses it as a replacement
TEMPLATE.  A parsed template is a sequence of literal chunks and
references to group 0 (the whole occurrence); since the pattern is
`re.escape(substring_from)` it has no capture groups, so every
reference to a group number above 0 is rejected by the parser. -/
inductive TmplPart where
  | lit (s : String)
  | groupZero
  deriving Repr, DecidableEq

/-- Expand a parsed template at one occurrence whose matched text is
`whole`. -/
def expandParts (parts : List TmplPart) (whole : String) : String :=
  String.mk (List.flatten (parts.map fun p =>
    match p with
    | .lit s => s.data
    | .groupZero => whole.data))

/-- Parse a `\g<name>` reference in a replacement template against a
pattern with zero capture groups: only `\g<0>` (any all-digit name of
value 0) is valid; a positive group number is an invalid group
reference (`re.error`) and a non-numeric name is an unknown group name
(`IndexError`).  Malformed syntax is `re.error`. -/
def parseGroupRef (rest : List Char) : Except PyError (List Char) :=
  match rest with
  | '<' :: cs =>
    let name := cs.takeWhile (· ≠ '>')
    match cs.dropWhile (· ≠ '>') with
    | '>' :: after =>
      if name.isEmpty then .error (.reError "missing group name")
      else if name.all (·.isDigit) then
        if pyDigitsVal name = 0 then .ok after
        else .error (.reError "invalid group reference")
      else .error .indexError
    | _ => .error (.reError "missing angle bracket, unterminated name")
  | _ => .error (.reError "missing angle bracket")

/-- Fuel-indexed model of CPython `sre_parse.parse_template` for a
pattern with zero capture groups.  After a backslash: another
backslash is a literal backslash; `g` starts a `\g<name>` reference;
`0` starts an octal escape of up to two more octal digits; another
digit is a three-octal-digit escape when the first three characters
are octal digits and a group reference of one or two digits otherwise
(always invalid here, the pattern having no groups); the letters
`a b f n r t v` are character escapes; any other ASCII letter is a bad
escape; any other character keeps the backslash literally.  A trailing
lone backslash is a bad escape.  The fuel dominates the input length
(each step consumes at least one character) and the wrapper passes
exactly the length. -/
def parseTmplFuel : Nat → List Char → Except PyError (List TmplPart)
  | 0, _ => .ok []
  | Nat.succ _, [] => .ok []
  | Nat.succ f, c :: cs =>
    if c = '\\' then
      match cs with
      | [] => .error (.reError "bad escape, end of pattern")
      | d :: ds =>
        if d = '\\' then (parseTmplFuel f ds).map (TmplPart.lit "\\" :: ·)
        else if d = 'g' then
          (parseGroupRef ds).bind
            (fun after => (parseTmplFuel f after).map (TmplPart.groupZero :: ·))
        else if d = '0' then
          let o := (ds.takeWhile isOct).take 2
          (parseTmplFuel f (ds.drop o.length)).map
            (TmplPart.lit (String.mk [Char.ofNat (octVal o % 256)]) :: ·)
        else if d.isDigit then
          match ds with
          | e1 :: e2 :: rest2 =>
            if e1.isDigit then
              if isOct d ∧ isOct e1 ∧ isOct e2 then
                let v := octVal [d, e1, e2]
                if v > 255 then .error (.reError "octal escape value outside of range")
                else (parseTmplFuel f rest2).map
                  (TmplPart.lit (String.mk [Char.ofNat v]) :: ·)
              else .error (.reError "invalid group reference")
            else .error (.reError "invalid group reference")
          | [e1] =>
            if e1.isDigit then .error (.reError "invalid group reference")
            else .error (.reError "invalid group reference")
          | [] => .error (.reError "invalid group reference")
        else if d = 'a' then (parseTmplFuel f ds).map (TmplPart.lit "\x07" :: ·)
        else if d = 'b' then (parseTmplFuel f ds).map (TmplPart.lit "\x08" :: ·)
        else if d = 'f' then (parseTmplFuel f ds).map (TmplPart.lit "\x0c" :: ·)
        else if d = 'n' then (parseTmplFuel f ds).map (TmplPart.lit "\n" :: ·)
        else if d = 'r' then (parseTmplFuel f ds).map (TmplPart.lit "\x0d" :: ·)
        else if d = 't' then (parseTmplFuel f ds).map (TmplPart.lit "\t" :: ·)
        else if d = 'v' then (parseTmplFuel f ds).map (TmplPart.lit "\x0b" :: ·)
        else if d.isAlpha then .error (.reError "bad escape")
        else (parseTmplFuel f ds).map (TmplPart.lit (String.mk ['\\', d]) :: ·)
    else (parseTmplFuel f cs).map (TmplPart.lit (String.mk [c]) :: ·)

/-- Parse a replacement template (the `substring_to` argument of
`re.Pattern.sub` in `_apply_replace`). -/
def pyParseTemplate (t : String) : Except PyError (List TmplPart) :=
  parseTmplFuel t.data.length t.data

/-- Does `pat` match at the start of `l`, optionally ignoring ASCII
case (`re.IGNORECASE` on the escaped-literal pattern). -/
def matchesHere (ci : Bool) (pat l : List Char) : Bool :=
  decide (pat.length ≤ l.length) &&
    (if ci then (l.take pat.length).map asciiLowerChar = pat.map asciiLowerChar
     else l.take pat.length = pat)

/-- Fuel-indexed core of `re.Pattern.sub` for a non-empty
escaped-literal pattern: scan left to right, replace each
non-overlapping occurrence by the expanded template (group 0 being the
actual occurrence text, which matters under `re.IGNORECASE`).  The
fuel dominates the subject length and the wrapper passes exactly
that. -/
def subLitFuel (ci : Bool) (pat : List Char) (parts : List TmplPart) :
    Nat → List Char → List Char
  | 0, l => l
  | Nat.succ f, l =>
    if pat ≠ [] ∧ matchesHere ci pat l then
      (expandParts parts (String.mk (l.take pat.length))).data ++
        subLitFuel ci pat parts f (l.drop pat.length)
    else
      match l with
      | [] => []
      | c :: cs => c :: subLitFuel ci pat parts f cs

/-- Models `re.Pattern.sub` with an empty pattern: matches the empty string at
every position, inserting the expansion at each boundary. -/
def subLitEmpty (parts : List TmplPart) : List Char → List Char
  | [] => (expandParts parts "").data
  | c :: cs => (expandParts parts "").data ++ c :: subLitEmpty parts cs

/-- Models `re.compile(re.escape(pat), flags).sub(template, s)` with
the template already parsed. -/
def pySubLiteral (ci : Bool) (pat : String) (parts : List TmplPart) (s : String) :
    String :=
  if pat.data.isEmpty then String.mk (subLitEmpty parts s.data)
  else String.mk (subLitFuel ci pat.data parts s.data.length s.data)

/-- Models `Renamer._apply_replace` (rename.py lines 184-193):
`re.escape(substring_from)` is compiled (with `re.IGNORECASE` when
configured) and `sub.sub(substring_to, match.group())` replaces every
non-overlapping occurrence; `substring_to` is parsed as a replacement
template (its errors are `re.error`, not `ValueError`); the configured
transform is applied to the result.  Escaping `substring_from` does not
change which texts it matches, so the compiled pattern is modelled as
the literal `substring_from`. -/
def Renamer.applyReplace (r : Renamer) (m : ReMatch)
    (substring_from substring_to : String) : Except RenameError String :=
  match pyParseTemplate substring_to with
  | .error e => .error (.py e)
  | .ok parts =>
    let move_to := pySubLiteral r.case_insensitive substring_from parts m.group0
    match TRANSFORM r.xform with
    | some tf => .ok (tf move_to)
    | none => .error (.py .keyError)

/-- The filesystem as `_rename` observes it: the `os.listdir(".")`
snapshot (in listing order), `os.path.exists`, and `os.stat(...).st_ino`
(`none` models the `OSError` raised for a name that cannot be
stat-ed).  Names are plain directory entries (no path separator), so
`os.path.abspath` prepends one fixed working directory to each. -/
structure FS where
  listing : List String
  pathExists : String → Bool
  statIno : String → Option Nat

/-- Models `is_same_file` (rename.py lines 298-302):
`os.path.abspath(f).lower()` comparison — which for plain entry names
under one working directory is ASCII-lower-cased name equality — and,
only when that holds (Python `and` short-circuits), `st_ino`
equality.  A failing `os.stat` is an `OSError`. -/
def is_same_file (fs : FS) (file1 file2 : String) : Except PyError Bool :=
  if pyLower file1 = pyLower file2 then
    match fs.statIno file1, fs.statIno file2 with
    | some i1, some i2 => .ok (i1 = i2)
    | _, _ => .error .osError
  else .ok false

/-- One iteration of the sanity-check loop of `_rename` (rename.py
lines 260-270) for the plan entry `(target, sources)`: more than one
source raises the collision `ValueError` (its message joining ALL the
sources); otherwise an existing target that is not the same underlying
file as the single source raises the target-exists `ValueError`.
`sources[0]` on an empty list would raise `IndexError` (unreachable
from plan construction, which only appends). -/
def checkEntry (fs : FS) (target : String) (sources : List String) :
    Option RenameError :=
  if 1 < sources.length then some (.collision target sources)
  else
    match sources with
    | [] => some (.py .indexError)
    | s :: _ =>
      if fs.pathExists target then
        match is_same_file fs target s with
        | .error e => some (.py e)
        | .ok true => none
        | .ok false => some (.targetExists target s)
      else none

/-- The sanity-check loop of `_rename` (rename.py lines 260-270):
first failing entry, in plan insertion order, aborts. -/
def sanityCheck (fs : FS) : List (String × List String) → Option RenameError
  | [] => none
  | (target, sources) :: rest =>
    match checkEntry fs target sources with
    | some e => some e
    | none => sanityCheck fs rest

/-- A filesystem mutation performed by the execution loop of
`_rename` (rename.py lines 271-295). -/
inductive Effect where
  | rename (src tgt : String)
  | copy (src tgt : String)
  | copymode (src tgt : String)
  | copystat (src tgt : String)
  deriving Repr, DecidableEq

/-- A message the execution loop prints instead of, or in addition to,
mutating (rename.py lines 274-278, 281-286, 292-293). -/
inductive Note where
  | unchanged (src : String)
  | wouldCopy (src tgt : String)
  | wouldRename (src tgt : String)
  deriving Repr, DecidableEq

/-- One iteration of the execution loop of `_rename` (rename.py lines
271-295): an unchanged name is skipped (with a note under `test`);
otherwise `copy` mode performs `shutil.copy`, `shutil.copymode` and
`shutil.copystat`, move mode performs `os.rename` — or, under `test`,
only a note is emitted.  An empty source list is unreachable (the
sanity check already raised). -/
def entryEffects (r : Renamer) (target : String) (sources : List String) :
    List Effect × List Note :=
  match sources with
  | [] => ([], [])
  | s :: _ =>
    if s = target then ([], if r.test then [.unchanged s] else [])
    else if r.copy then
      if r.test then ([], [.wouldCopy s target])
      else ([.copy s target, .copymode s target, .copystat s target], [])
    else
      if r.test then ([], [.wouldRename s target])
      else ([.rename s target], [])

/-- The execution loop of `_rename` over the whole plan, in plan
insertion order. -/
def executePlan (r : Renamer) : List (String × List String) → List Effect × List Note
  | [] => ([], [])
  | (target, sources) :: rest =>
    let head := entryEffects r target sources
    let tail := executePlan r rest
    (head.1 ++ tail.1, head.2 ++ tail.2)

/-- Which of the two expansion modes `_rename` runs (rename.py lines
246-258): `target is not None` selects classic regex mode, otherwise
both substrings select simple mode.  (The remaining `RuntimeError`
state is unreachable through `rename_regex` / `rename_simple`, which
always supply one of the two.) -/
inductive Mode where
  | regex (target : String)
  | simple (substring_from substring_to : String)

/-- Models `dict.setdefault(move_to, []).append(entry)` on an
insertion-ordered association list (rename.py line 259). -/
def dictAppend (d : List (String × List String)) (key val : String) :
    List (String × List String) :=
  match d with
  | [] => [(key, [val])]
  | (k, vs) :: rest =>
    if k = key then (k, vs ++ [val]) :: rest else (k, vs) :: dictAppend rest key val

/-- The matching loop of `_rename` (rename.py lines 242-259) over the
enumerated (already exclusion-filtered) file list: a non-matching entry
is skipped but still occupied its enumeration position; a matching
entry is expanded (classic or simple mode) and appended to the plan.
An expansion exception aborts, keeping the appends made so far (the
plan is the mutated `self.targets`). -/
def buildPlan (r : Renamer) (rmatch : String → Option ReMatch) (mode : Mode)
    (max_indexes : Nat) :
    List (Nat × String) → List (String × List String) →
    List (String × List String) × Option RenameError
  | [], acc => (acc, none)
  | (index, entry) :: rest, acc =>
    match rmatch entry with
    | none => buildPlan r rmatch mode max_indexes rest acc
    | some m =>
      let res :=
        match mode with
        | .regex target => r.applyMatch m target index max_indexes
        | .simple substring_from substring_to =>
          r.applyReplace m substring_from substring_to
      match res with
      | .error e => (acc, some e)
      | .ok move_to => buildPlan r rmatch mode max_indexes rest (dictAppend acc move_to entry)

/-- The exclusion filtering of `_rename` (rename.py lines 238-240):
`files = [f for f in files if not exc.search(f)]` when an exclusion
regex was supplied (`None` models the falsy empty string). -/
def filteredFiles (fs : FS) (excMatch : Option (String → Bool)) : List String :=
  match excMatch with
  | some exc => fs.listing.filter (fun f => ! exc f)
  | none => fs.listing

/-- Everything `_rename` leaves behind: the mutated `self.targets`, the
filesystem mutations performed, the notes printed, and the exception
raised (if any). -/
structure CoreOut where
  targets : List (String × List String)
  effects : List Effect
  notes : List Note
  err : Option RenameError
  deriving Repr, DecidableEq

/-- Models `Renamer._rename` (rename.py lines 198-295): filter the listing,
enumerate it (`file_count = len(files)` feeds the auto index width),
build the plan into `self.targets`, run the sanity check over the
whole plan, and only then run the execution loop.  Any exception
propagates with no effect performed in the two later phases. -/
def renameCore (r : Renamer) (rmatch : String → Option ReMatch)
    (excMatch : Option (String → Bool)) (mode : Mode) (fs : FS) : CoreOut :=
  let files := filteredFiles fs excMatch
  let bp := buildPlan r rmatch mode files.length files.enum r.targets
  match bp.2 with
  | some e => ⟨bp.1, [], [], some e⟩
  | none =>
    match sanityCheck fs bp.1 with
    | some e => ⟨bp.1, [], [], some e⟩
    | none =>
      let ex := executePlan r bp.1
      ⟨bp.1, ex.1, ex.2, none⟩

/-- What one call of `rename_regex` / `rename_simple` produces: the
Renamer with its mutated `targets` attribute, the status code, and the
observable effects and notes. -/
structure RunResult where
  renamer : Renamer
  status : Nat
  effects : List Effect
  notes : List Note
  deriving Repr, DecidableEq

/-- The shared wrapper behaviour of `rename_regex` and `rename_simple`
(rename.py lines 87-156): run `_rename`, return 0 on success, the
status of the exception otherwise; `self.targets` keeps whatever
`_rename` accumulated. -/
def runRename (r : Renamer) (rmatch : String → Option ReMatch)
    (excMatch : Option (String → Bool)) (mode : Mode) (fs : FS) : RunResult :=
  let out := renameCore r rmatch excMatch mode fs
  { renamer := { r with targets := out.targets }
    status := match out.err with | none => 0 | some e => e.status
    effects := out.effects
    notes := out.notes }

/-- Models `Renamer.rename_regex` (rename.py lines 87-116). -/
def Renamer.rename_regex (r : Renamer) (rmatch : String → Option ReMatch)
    (excMatch : Option (String → Bool)) (target : String) (fs : FS) : RunResult :=
  runRename r rmatch excMatch (.regex target) fs

/-- Models `Renamer.rename_simple` (rename.py lines 118-156). -/
def Renamer.rename_simple (r : Renamer) (rmatch : String → Option ReMatch)
    (excMatch : Option (String → Bool)) (substring_from substring_to : String)
    (fs : FS) : RunResult :=
  runRename r rmatch excMatch (.simple substring_from substring_to) fs

/-- Modelled from the spec wording of claim C4, for comparison with the
code: "render the absolute index magnitude in base 10, left-pad with
the pad character until the string reaches the computed width". -/
def specAbsRender (first step : Int) (n : Nat) (width : Nat) (pad : String) : String :=
  let s := natDec (first + n * step).natAbs
  if s.length < width then pyRepeat pad ((width : Int) - (s.length : Int)) ++ s else s

/-- Modelled from the spec wording of claim C7, for comparison with the
code: occurrences replaced "with substring_to ... a literal string,
inserted as-is, including any backslash sequences". -/
def specLiteralReplace (ci : Bool) (substring_from substring_to text : String) : String :=
  pySubLiteral ci substring_from [.lit substring_to] text

/-- Concrete match oracle (claim C2): a compiled regex with one group
under which `x` captures `t1` while `a` and `b` both capture `t2`. -/
def rmC2 : String → Option ReMatch := fun s =>
  if s = "x" then some ⟨"x", [some "t1"]⟩
  else if s = "a" then some ⟨"a", [some "t2"]⟩
  else if s = "b" then some ⟨"b", [some "t2"]⟩
  else none

/-- Concrete filesystem (claim C2): `t1` already exists on disk as a
file distinct from `x`. -/
def fsC2 : FS :=
  ⟨["x", "a", "b"], fun n => n = "t1",
   fun n => if n = "t1" then some 10 else if n = "x" then some 1 else some 0⟩

/-- Concrete match oracle (claims C6, C9, C10): the anchored regex `a`
with zero capture groups. -/
def rm9 : String → Option ReMatch := fun s =>
  if s = "a" then some ⟨"a", []⟩ else none

/-- Concrete filesystem (claims C6, C9, C10): the single file `a`. -/
def fs9 : FS :=
  ⟨["a"], fun n => n = "a", fun n => if n = "a" then some 5 else none⟩

/-- Concrete filesystem (claim C3): names `CaSe1q` and `case1q` both
resolve to one physical file (same inode), as on a case-preserving
filesystem. -/
def fs3 : FS :=
  ⟨["CaSe1q"], fun n => n = "CaSe1q" ∨ n = "case1q",
   fun n => if n = "CaSe1q" ∨ n = "case1q" then some 7 else none⟩

/-- Concrete match oracle (claims C1, C2): `a` and `b` both capture
`t`. -/
def rmCol : String → Option ReMatch := fun s =>
  if s = "a" then some ⟨"a", [some "t"]⟩
  else if s = "b" then some ⟨"b", [some "t"]⟩
  else none

/-- Concrete filesystem (claims C1, C2): two files, nothing else
exists. -/
def fsCol : FS := ⟨["a", "b"], fun _ => false, fun _ => none⟩

/-- Concrete match oracle (claim C8): matches `a` and `c` with zero
groups. -/
def rm8 : String → Option ReMatch := fun s =>
  if s = "a" ∨ s = "c" then some ⟨s, []⟩ else none

/-- Concrete filesystem (claim C8) with the excluded entry `b`
present. -/
def fs8a : FS := ⟨["a", "b", "c"], fun _ => false, fun _ => none⟩

/-- Concrete filesystem (claim C8) with the excluded entry absent. -/
def fs8b : FS := ⟨["a", "c"], fun _ => false, fun _ => none⟩

theorem renameCore_err_effects (r : Renamer) (rm : String → Option ReMatch)
    (exc : Option (String → Bool)) (mode : Mode) (fs : FS) (e : RenameError)
    (h : (renameCore r rm exc mode fs).err = some e) :
    (renameCore r rm exc mode fs).effects = [] := by
  unfold renameCore at h ⊢
  dsimp only at h ⊢
  cases hb : (buildPlan r rm mode (filteredFiles fs exc).length
      (filteredFiles fs exc).enum r.targets).2 with
  | some e1 => rfl
  | none =>
    cases hs : sanityCheck fs (buildPlan r rm mode (filteredFiles fs exc).length
        (filteredFiles fs exc).enum r.targets).1 with
    | some e2 => rfl
    | none => rw [hb, hs] at h; exact absurd h (by simp)

theorem renameCore_ok_checked (r : Renamer) (rm : String → Option ReMatch)
    (exc : Option (String → Bool)) (mode : Mode) (fs : FS)
    (h : (renameCore r rm exc mode fs).err = none) :
    sanityCheck fs (renameCore r rm exc mode fs).targets = none := by
  unfold renameCore at h ⊢
  dsimp only at h ⊢
  cases hb : (buildPlan r rm mode (filteredFiles fs exc).length
      (filteredFiles fs exc).enum r.targets).2 with
  | some e1 => rw [hb] at h; exact absurd h (by simp)
  | none =>
    cases hs : sanityCheck fs (buildPlan r rm mode (filteredFiles fs exc).length
        (filteredFiles fs exc).enum r.targets).1 with
    | some e2 => rw [hb, hs] at h; exact absurd h (by simp)
    | none => dsimp only; exact hs

theorem renameCore_targets_eq (r : Renamer) (rm : String → Option ReMatch)
    (exc : Option (String → Bool)) (mode : Mode) (fs : FS) :
    (renameCore r rm exc mode fs).targets =
      (buildPlan r rm mode (filteredFiles fs exc).length
        (filteredFiles fs exc).enum r.targets).1 := by
  unfold renameCore
  dsimp only
  cases hb : (buildPlan r rm mode (filteredFiles fs exc).length
      (filteredFiles fs exc).enum r.targets).2 with
  | some e1 => rfl
  | none =>
    cases hs : sanityCheck fs (buildPlan r rm mode (filteredFiles fs exc).length
        (filteredFiles fs exc).enum r.targets).1 with
    | some e2 => rfl
    | none => rfl

theorem checkEntry_collision (fs : FS) (t0 : String) (s0 : List String)
    (t : String) (srcs : List String)
    (h : checkEntry fs t0 s0 = some (.collision t srcs)) :
    t0 = t ∧ s0 = srcs ∧ 1 < srcs.length := by
  unfold checkEntry at h
  split at h
  · rename_i hlen
    obtain ⟨h1, h2⟩ := RenameError.collision.inj (Option.some.inj h)
    subst h1; subst h2; exact ⟨rfl, rfl, hlen⟩
  · split at h
    · simp at h
    · split at h
      · split at h <;> simp_all
      · simp at h

theorem sanityCheck_collision_mem (fs : FS) (plan : List (String × List String))
    (t : String) (srcs : List String)
    (h : sanityCheck fs plan = some (.collision t srcs)) :
    (t, srcs) ∈ plan ∧ 1 < srcs.length := by
  induction plan with
  | nil => simp [sanityCheck] at h
  | cons hd tl ih =>
    obtain ⟨t0, s0⟩ := hd
    unfold sanityCheck at h
    cases hc : checkEntry fs t0 s0 with
    | none => rw [hc] at h; exact ⟨List.mem_cons_of_mem _ (ih h).1, (ih h).2⟩
    | some e0 =>
      rw [hc] at h
      obtain ⟨h1, h2, h3⟩ := checkEntry_collision fs t0 s0 t srcs
        (by rw [hc, Option.some.inj h])
      exact ⟨by rw [← h1, ← h2]; exact List.mem_cons_self _ _, h3⟩

theorem sanityCheck_none_single (fs : FS) (plan : List (String × List String))
    (h : sanityCheck fs plan = none) :
    ∀ t srcs, (t, srcs) ∈ plan → srcs.length ≤ 1 := by
  induction plan with
  | nil => intro t srcs hm; simp at hm
  | cons hd tl ih =>
    obtain ⟨t0, s0⟩ := hd
    unfold sanityCheck at h
    cases hc : checkEntry fs t0 s0 with
    | some e0 => rw [hc] at h; exact absurd h (by simp)
    | none =>
      rw [hc] at h
      intro t srcs hm
      rcases List.mem_cons.mp hm with heq | hmem
      · injection heq with h1 h2
        subst h1; subst h2
        unfold checkEntry at hc
        split at hc
        · simp at hc
        · omega
      · exact ih h t srcs hmem

theorem executePlan_test_effects (r : Renamer) (plan : List (String × List String))
    (ht : r.test = true) : (executePlan r plan).1 = [] := by
  induction plan with
  | nil => rfl
  | cons hd tl ih =>
    obtain ⟨t0, s0⟩ := hd
    unfold executePlan
    have hhead : (entryEffects r t0 s0).1 = [] := by
      unfold entryEffects
      cases s0 with
      | nil => rfl
      | cons s ss => simp only [ht]; split_ifs <;> simp
    simp [hhead, ih]

theorem checkEntry_listing_irrelevant (l1 l2 : List String) (pe : String → Bool)
    (ino : String → Option Nat) (t : String) (srcs : List String) :
    checkEntry ⟨l1, pe, ino⟩ t srcs = checkEntry ⟨l2, pe, ino⟩ t srcs := rfl

theorem sanityCheck_listing_irrelevant (l1 l2 : List String) (pe : String → Bool)
    (ino : String → Option Nat) (plan : List (String × List String)) :
    sanityCheck ⟨l1, pe, ino⟩ plan = sanityCheck ⟨l2, pe, ino⟩ plan := by
  induction plan with
  | nil => rfl
  | cons hd tl ih =>
    obtain ⟨t0, s0⟩ := hd
    unfold sanityCheck
    rw [checkEntry_listing_irrelevant l1 l2]
    cases checkEntry ⟨l2, pe, ino⟩ t0 s0 <;> simp [ih]

theorem resolveDigits_err (r : Renamer) (mx : Nat) (e : RenameError)
    (h : r.resolveDigits mx = .error e) : e = .mathDomain := by
  unfold Renamer.resolveDigits autoLogWidth at h
  cases hd : r.index_digits with
  | auto =>
    rw [hd] at h
    dsimp only at h
    split at h
    · dsimp only [Except.map] at h; exact (Except.error.inj h).symm
    · dsimp only [Except.map] at h; simp at h
  | fixed k => rw [hd] at h; simp at h

theorem renderIndex_err (r : Renamer) (i mx : Nat) (e : RenameError)
    (h : r.renderIndex i mx = .error e) : e = .mathDomain := by
  unfold Renamer.renderIndex at h
  dsimp only at h
  split at h
  · rename_i e0 heq
    rw [← Except.error.inj h]
    exact resolveDigits_err r mx e0 heq
  · simp at h

theorem resolveBracketRef_err (r : Renamer) (m : ReMatch) (i mx : Nat)
    (ref : String) (e : RenameError)
    (h : r.resolveBracketRef m i mx ref = .error e) :
    e = .mathDomain ∨ (∃ pe, e = .py pe) ∨ (∃ s, e = .unknownReference s) := by
  unfold Renamer.resolveBracketRef at h
  cases hp : pyParseInt ref with
  | some n =>
    rw [hp] at h
    dsimp only at h
    split at h
    · rename_i pe heq
      exact .inr (.inl ⟨pe, (Except.error.inj h).symm⟩)
    · exact .inr (.inl ⟨.typeError, (Except.error.inj h).symm⟩)
    · simp at h
  | none =>
    rw [hp] at h
    dsimp only at h
    split at h
    · exact .inl (renderIndex_err r i mx e h)
    · exact .inr (.inr ⟨ref, (Except.error.inj h).symm⟩)

theorem applyBackrefs_err (m : ReMatch) (toks : List (List Char)) (acc : String)
    (e : RenameError) (h : applyBackrefs m toks acc = .error e) : ∃ pe, e = .py pe := by
  induction toks generalizing acc with
  | nil => simp [applyBackrefs] at h
  | cons num rest ih =>
    unfold applyBackrefs at h
    split at h
    · rename_i pe heq
      exact ⟨pe, (Except.error.inj h).symm⟩
    · exact ⟨.typeError, (Except.error.inj h).symm⟩
    · exact ih _ h

theorem applyBrackets_err (r : Renamer) (m : ReMatch) (i mx : Nat)
    (toks : List (List Char)) (acc : String) (e : RenameError)
    (h : r.applyBrackets m i mx toks acc = .error e) :
    e = .mathDomain ∨ (∃ pe, e = .py pe) ∨ (∃ s, e = .unknownReference s) := by
  induction toks generalizing acc with
  | nil => simp [Renamer.applyBrackets] at h
  | cons ref rest ih =>
    unfold Renamer.applyBrackets at h
    split at h
    · rename_i e0 heq
      rw [← Except.error.inj h]
      exact resolveBracketRef_err r m i mx (String.mk ref) e0 heq
    · exact ih _ h

theorem applyMatch_err_shape (r : Renamer) (m : ReMatch) (target : String)
    (i mx : Nat) (e : RenameError)
    (h : r.applyMatch m target i mx = .error e) :
    e = .mathDomain ∨ (∃ pe, e = .py pe) ∨ (∃ s, e = .unknownReference s) := by
  unfold Renamer.applyMatch at h
  split at h
  · rename_i e1 heq
    rw [← Except.error.inj h]
    obtain ⟨pe, hpe⟩ := applyBackrefs_err m _ _ e1 heq
    exact .inr (.inl ⟨pe, hpe⟩)
  · rename_i afterNums heq
    split at h
    · rename_i e2 heq2
      rw [← Except.error.inj h]
      exact applyBrackets_err r m i mx _ _ e2 heq2
    · rename_i move_to heq2
      split at h
      · simp at h
      · exact .inr (.inl ⟨.keyError, (Except.error.inj h).symm⟩)

theorem applyReplace_err_shape (r : Renamer) (m : ReMatch)
    (substring_from substring_to : String) (e : RenameError)
    (h : r.applyReplace m substring_from substring_to = .error e) :
    ∃ pe, e = .py pe := by
  unfold Renamer.applyReplace at h
  split at h
  · rename_i pe heq
    exact ⟨pe, (Except.error.inj h).symm⟩
  · rename_i parts heq
    dsimp only at h
    split at h
    · simp at h
    · exact ⟨.keyError, (Except.error.inj h).symm⟩

theorem buildPlan_err_shape (r : Renamer) (rm : String → Option ReMatch)
    (mode : Mode) (mx : Nat) (files : List (Nat × String))
    (acc : List (String × List String)) (e : RenameError)
    (h : (buildPlan r rm mode mx files acc).2 = some e) :
    e = .mathDomain ∨ (∃ pe, e = .py pe) ∨ (∃ s, e = .unknownReference s) := by
  induction files generalizing acc with
  | nil => simp [buildPlan] at h
  | cons hd tl ih =>
    obtain ⟨i, entry⟩ := hd
    cases mode with
    | regex target =>
      unfold buildPlan at h
      dsimp only at h
      split at h
      · exact ih _ h
      · rename_i m hm
        split at h
        · rename_i e0 heq
          dsimp only at h
          rw [← Option.some.inj h]
          exact applyMatch_err_shape r m target i mx e0 heq
        · exact ih _ h
    | simple sf st =>
      unfold buildPlan at h
      dsimp only at h
      split at h
      · exact ih _ h
      · rename_i m hm
        split at h
        · rename_i e0 heq
          dsimp only at h
          rw [← Option.some.inj h]
          obtain ⟨pe, hpe⟩ := applyReplace_err_shape r m sf st e0 heq
          exact .inr (.inl ⟨pe, hpe⟩)
        · exact ih _ h

theorem brScan_plain_no_slash (l : List Char) (h : ∀ c ∈ l, c ≠ '\\') :
    brScan .plain l = [] := by
  induction l with
  | nil => rfl
  | cons c cs ih =>
    unfold brScan
    rw [if_neg (h c (List.mem_cons_self c cs))]
    exact ih (fun d hd => h d (List.mem_cons_of_mem c hd))

theorem bkScan_plain_no_slash (l : List Char) (h : ∀ c ∈ l, c ≠ '\\') :
    bkScan .plain l = [] := by
  induction l with
  | nil => rfl
  | cons c cs ih =>
    unfold bkScan
    rw [if_neg (h c (List.mem_cons_self c cs))]
    exact ih (fun d hd => h d (List.mem_cons_of_mem c hd))

theorem bkScan_inRef (ref : List Char) (acc : List Char) (rest : List Char)
    (h : ∀ c ∈ ref, c ≠ ')') (hne : acc ++ ref ≠ []) :
    bkScan (.inRef acc) (ref ++ ')' :: rest) = (acc ++ ref) :: bkScan .plain rest := by
  induction ref generalizing acc with
  | nil =>
    simp only [List.nil_append] at hne ⊢
    conv_lhs => unfold bkScan
    rw [if_pos rfl, if_neg (by simpa using hne)]
    simp
  | cons c cs ih =>
    have hc : c ≠ ')' := h c (List.mem_cons_self c cs)
    simp only [List.cons_append]
    conv_lhs => unfold bkScan
    rw [if_neg hc]
    have hih := ih (acc ++ [c]) (fun d hd => h d (List.mem_cons_of_mem c hd))
      (by simp)
    rw [hih]
    simp

theorem brScan_token_digits (ds : List Char) (acc : List Char)
    (h : ∀ c ∈ ds, c.isDigit = true) :
    brScan (.token acc) ds = [acc ++ ds] := by
  induction ds generalizing acc with
  | nil => simp [brScan]
  | cons c cs ih =>
    unfold brScan
    rw [if_pos (h c (List.mem_cons_self c cs))]
    rw [ih (acc ++ [c]) (fun d hd => h d (List.mem_cons_of_mem c hd))]
    simp

theorem replFuel_nil (pat rep : List Char) (f : Nat) : replFuel pat rep f [] = [] := by
  cases f with
  | zero => rfl
  | succ f =>
    unfold replFuel
    rw [if_neg]
    rintro ⟨hne, hpre⟩
    rw [ List.isPrefixOf_iff_prefix] at hpre
    exact hne (List.prefix_nil.mp hpre)

theorem pyReplace_self (s rep : String) (hne : s.data ≠ []) :
    pyReplace s s rep = rep := by
  unfold pyReplace
  rw [if_neg (by simpa using hne)]
  obtain ⟨n, hn⟩ : ∃ n, s.data.length = n + 1 := by
    cases hl : s.data with
    | nil => exact absurd hl hne
    | cons c cs => exact ⟨cs.length, by simp⟩
  rw [hn]
  unfold replFuel
  rw [if_pos ⟨hne, by rw [ List.isPrefixOf_iff_prefix]⟩]
  rw [List.drop_length, replFuel_nil, List.append_nil]

theorem bracketTemplate_data (ref : String) :
    ("\\(" ++ ref ++ ")").data = '\\' :: '(' :: (ref.data ++ [')']) := by
  simp [String.data_append]

theorem findBrackets_single (ref : String) (h1 : ref.data ≠ [])
    (h2 : ∀ c ∈ ref.data, c ≠ ')' ∧ c ≠ '\\') :
    findBrackets ("\\(" ++ ref ++ ")") = [ref.data] := by
  unfold findBrackets
  rw [bracketTemplate_data]
  conv_lhs => unfold bkScan
  rw [if_pos rfl]
  conv_lhs => unfold bkScan
  rw [if_pos rfl]
  rw [show ref.data ++ [')'] = ref.data ++ ')' :: ([] : List Char) from rfl]
  rw [bkScan_inRef ref.data [] [] (fun c hc => (h2 c hc).1) (by simpa using h1)]
  rfl

theorem findBackrefs_bracket_template (ref : String)
    (h2 : ∀ c ∈ ref.data, c ≠ '\\') :
    findBackrefs ("\\(" ++ ref ++ ")") = [] := by
  unfold findBackrefs
  rw [bracketTemplate_data]
  conv_lhs => unfold brScan
  rw [if_pos rfl]
  conv_lhs => unfold brScan
  rw [if_neg (by decide), if_neg (by decide)]
  refine brScan_plain_no_slash _ ?_
  intro c hc
  rcases List.mem_append.mp hc with hm | hm
  · exact h2 c hm
  · simp only [List.mem_singleton] at hm
    subst hm
    decide

theorem string_eta (l : List Char) : (String.mk l).data = l := rfl

theorem parseTmplFuel_no_slash (l : List Char) (h : ∀ c ∈ l, c ≠ '\\') :
    parseTmplFuel l.length l = .ok (l.map fun c => TmplPart.lit (String.mk [c])) := by
  induction l with
  | nil => rfl
  | cons c cs ih =>
    show parseTmplFuel (cs.length + 1) (c :: cs) = _
    unfold parseTmplFuel
    rw [if_neg (h c (List.mem_cons_self c cs))]
    rw [ih (fun d hd => h d (List.mem_cons_of_mem c hd))]
    rfl

theorem expandParts_charLits (l : List Char) (w : String) :
    expandParts (l.map fun c => TmplPart.lit (String.mk [c])) w = String.mk l := by
  unfold expandParts
  congr 1
  induction l with
  | nil => rfl
  | cons c cs ih => simpa using ih

theorem expandParts_singleLit (t : String) (w : String) :
    expandParts [TmplPart.lit t] w = t := by
  unfold expandParts
  simp

theorem subLitFuel_congr (ci : Bool) (pat : List Char) (P Q : List TmplPart)
    (hPQ : ∀ w, expandParts P w = expandParts Q w) (f : Nat) (l : List Char) :
    subLitFuel ci pat P f l = subLitFuel ci pat Q f l := by
  induction f generalizing l with
  | zero => rfl
  | succ f ih =>
    unfold subLitFuel
    split
    · rw [hPQ, ih]
    · cases l with
      | nil => rfl
      | cons c cs => dsimp only; rw [ih]

theorem subLitEmpty_congr (P Q : List TmplPart)
    (hPQ : ∀ w, expandParts P w = expandParts Q w) (l : List Char) :
    subLitEmpty P l = subLitEmpty Q l := by
  induction l with
  | nil => unfold subLitEmpty; rw [hPQ]
  | cons c cs ih => unfold subLitEmpty; rw [hPQ, ih]

theorem pySubLiteral_congr (ci : Bool) (pat : String) (P Q : List TmplPart)
    (hPQ : ∀ w, expandParts P w = expandParts Q w) (s : String) :
    pySubLiteral ci pat P s = pySubLiteral ci pat Q s := by
  unfold pySubLiteral
  split
  · rw [subLitEmpty_congr P Q hPQ]
  · rw [subLitFuel_congr ci pat.data P Q hPQ]

theorem renameCore_ok_effects (r : Renamer) (rm : String → Option ReMatch)
    (exc : Option (String → Bool)) (mode : Mode) (fs : FS)
    (h : (renameCore r rm exc mode fs).err = none) :
    (renameCore r rm exc mode fs).effects =
      (executePlan r (renameCore r rm exc mode fs).targets).1 := by
  unfold renameCore at h ⊢
  dsimp only at h ⊢
  cases hb : (buildPlan r rm mode (filteredFiles fs exc).length
      (filteredFiles fs exc).enum r.targets).2 with
  | some e1 => rw [hb] at h; exact absurd h (by simp)
  | none =>
    cases hs : sanityCheck fs (buildPlan r rm mode (filteredFiles fs exc).length
        (filteredFiles fs exc).enum r.targets).1 with
    | some e2 => rw [hb, hs] at h; exact absurd h (by simp)
    | none => rfl

/-- Claim C1: for every batch, no filesystem mutation (rename or copy)
is performed until the validation loop (fan-in check and
pre-existing-target check) has succeeded for every entry in the
computed plan; if any exception is raised — in particular a validation
failure for any single entry — no entry in the batch is mutated. -/
theorem C1_all_or_nothing (r : Renamer) (rm : String → Option ReMatch)
    (exc : Option (String → Bool)) (mode : Mode) (fs : FS) :
    ((renameCore r rm exc mode fs).err.isSome = true →
      (renameCore r rm exc mode fs).effects = []) ∧
    ((renameCore r rm exc mode fs).effects ≠ [] →
      (renameCore r rm exc mode fs).err = none ∧
      sanityCheck fs (renameCore r rm exc mode fs).targets = none) := by
  constructor
  · intro h
    cases he : (renameCore r rm exc mode fs).err with
    | none => rw [he] at h; simp at h
    | some e => exact renameCore_err_effects r rm exc mode fs e he
  · intro h
    cases he : (renameCore r rm exc mode fs).err with
    | some e => exact absurd (renameCore_err_effects r rm exc mode fs e he) h
    | none => exact ⟨rfl, renameCore_ok_checked r rm exc mode fs he⟩

/-- Witness for C1 at a concrete collision batch: the run raises, and
no effect was performed. -/
theorem C1_witness :
    (renameCore ({ } : Renamer) rmCol none (.regex "\\1") fsCol).effects = [] :=
  (C1_all_or_nothing ({ } : Renamer) rmCol none (.regex "\\1") fsCol).1 (by decide)

/-- Claim C10: in dry-run mode (`test = True`), no filesystem mutation
(`os.rename`, `shutil.copy`, `copymode`, `copystat`) is ever performed,
regardless of outcome. -/
theorem C10_dry_run_no_mutation (r : Renamer) (rm : String → Option ReMatch)
    (exc : Option (String → Bool)) (mode : Mode) (fs : FS)
    (ht : r.test = true) :
    (renameCore r rm exc mode fs).effects = [] ∧
    (runRename r rm exc mode fs).effects = [] := by
  have hmain : (renameCore r rm exc mode fs).effects = [] := by
    cases he : (renameCore r rm exc mode fs).err with
    | some e => exact renameCore_err_effects r rm exc mode fs e he
    | none =>
      rw [renameCore_ok_effects r rm exc mode fs he]
      exact executePlan_test_effects r _ ht
  exact ⟨hmain, hmain⟩

/-- Witness for C10: a concrete dry run performs no effect. -/
theorem C10_witness :
    (renameCore ({ test := true } : Renamer) rm9 none (.regex "a") fs9).effects = [] ∧
    (runRename ({ test := true } : Renamer) rm9 none (.regex "a") fs9).effects = [] :=
  C10_dry_run_no_mutation ({ test := true } : Renamer) rm9 none (.regex "a") fs9 rfl

/-- Claim C3: for a validated destination `t` differing from its single
source `s`, an existing filesystem entry at `t` fails the batch with
the target-exists `ValueError` (status 1) unless destination and
source are the same underlying file (lower-cased absolute path and
inode both equal), in which case validation passes and move-mode
execution performs exactly the rename — so a pure case-changing rename
on a filesystem where both names resolve to one physical file
succeeds. -/
theorem C3_preexisting_target_check (fs : FS) (t s : String)
    (hts : t ≠ s) (hex : fs.pathExists t = true) :
    (is_same_file fs t s = .ok false →
      sanityCheck fs [(t, [s])] = some (.targetExists t s) ∧
      (RenameError.targetExists t s).status = 1) ∧
    (is_same_file fs t s = .ok true →
      sanityCheck fs [(t, [s])] = none ∧
      ∀ r : Renamer, r.test = false → r.copy = false →
        executePlan r [(t, [s])] = ([Effect.rename s t], [])) := by
  have hch : ∀ b, is_same_file fs t s = .ok b →
      checkEntry fs t [s] = (if b then none else some (.targetExists t s)) := by
    intro b hb
    unfold checkEntry
    rw [if_neg (by simp)]
    dsimp only
    rw [if_pos hex, hb]
    cases b <;> rfl
  constructor
  · intro hsame
    have hthis := hch false hsame
    simp only [if_false] at hthis
    exact ⟨by unfold sanityCheck; rw [hthis]; simp, rfl⟩
  · intro hsame
    have hc := hch true hsame
    simp only [if_true] at hc
    refine ⟨by unfold sanityCheck; rw [hc]; rfl, ?_⟩
    intro r hrt hrc
    unfold executePlan entryEffects
    dsimp only
    rw [if_neg (fun hh => hts hh.symm), hrc]
    simp [hrt, executePlan]

/-- Witness for C3: renaming `CaSe1q` to `case1q` where both names
resolve to inode 7 passes validation and performs the rename. -/
theorem C3_witness :
    sanityCheck fs3 [("case1q", ["CaSe1q"])] = none ∧
    executePlan ({ } : Renamer) [("case1q", ["CaSe1q"])] =
      ([Effect.rename "CaSe1q" "case1q"], []) := by
  have h := (C3_preexisting_target_check fs3 "case1q" "CaSe1q"
    (by decide) (by decide)).2 (by decide)
  exact ⟨h.1, h.2 ({ } : Renamer) rfl rfl⟩

/-- Counterexample to claim C4 as stated: with `index_first = -5`
(negative steps and starts are admitted configurations), position 0 and
fixed width 3, the code renders the SIGNED decimal `-5` padded to
`0-5`, not the absolute magnitude `5` padded to `005` that the claim
describes. -/
theorem C4_counterexample :
    ({ index_first := -5, index_digits := .fixed 3 } : Renamer).renderIndex 0 0
      = .ok "0-5" ∧
    specAbsRender (-5) 1 0 3 "0" = "005" ∧
    ({ index_first := -5, index_digits := .fixed 3 } : Renamer).renderIndex 0 0
      ≠ .ok (specAbsRender (-5) 1 0 3 "0") := by decide

/-- Claim C4 as amended: `index(n) = index_first + n * index_step`; the
rendering is the SIGNED base-10 representation (Python `"%d"`) — which
equals the absolute magnitude only for non-negative values — prefixed
by the pad string repeated `width - length` times when that is
positive; it is never truncated when the natural representation
reaches or exceeds the width; and it is a pure function of the
position and the configuration (an equation of pure functions). -/
theorem C4_index_rendering (r : Renamer) (n max_indexes : Nat) (w : Int)
    (hw : r.resolveDigits max_indexes = .ok w) :
    r.index n = r.index_first + n * r.index_step ∧
    r.renderIndex n max_indexes =
      .ok ((if 0 < w - (intDec (r.index n)).length
            then pyRepeat r.index_pad_with (w - (intDec (r.index n)).length)
            else "") ++ intDec (r.index n)) ∧
    ((w : Int) ≤ (intDec (r.index n)).length →
      r.renderIndex n max_indexes = .ok (intDec (r.index n))) := by
  have hrender : r.renderIndex n max_indexes =
      .ok ((if 0 < w - (intDec (r.index n)).length
            then pyRepeat r.index_pad_with (w - (intDec (r.index n)).length)
            else "") ++ intDec (r.index n)) := by
    unfold Renamer.renderIndex
    rw [hw]
    dsimp only
    split
    · rfl
    · simp
  refine ⟨rfl, hrender, fun hle => ?_⟩
  rw [hrender, if_neg (by omega)]
  simp

/-- Witness for C4 at `first = 100`, `step = 2`, width 5, pad `_`,
position 4: the rendering is `__108`. -/
theorem C4_witness :
    ({ index_first := 100, index_step := 2, index_digits := .fixed 5, index_pad_with := "_" } : Renamer).renderIndex 4 0 = .ok "__108" :=
  ((C4_index_rendering ({ index_first := 100, index_step := 2, index_digits := .fixed 5, index_pad_with := "_" } : Renamer) 4 0 5 (by decide)).2.1).trans (by decide)

/-- Counterexample to claim C5 as stated: the differently-cased token
`\(INDEX)` does NOT fail with an unknown-reference error; because the
code compares `ref.lower() != "index"`, it is accepted and substitutes
the formatted index (here `1`). -/
theorem C5_counterexample :
    ({ } : Renamer).applyMatch ⟨"x", []⟩ "\\(INDEX)" 0 1 = .ok "1" ∧
    ({ } : Renamer).applyMatch ⟨"x", []⟩ "\\(INDEX)" 0 1 ≠
      .error (.unknownReference "INDEX") := by decide

/-- Claim C5 as amended: a `\(ref)` token whose ref parses as an
integer substitutes that capture group (out-of-range numbers raising
`IndexError`, non-participating groups `TypeError`); a token whose ref
is CASE-INSENSITIVELY equal to `index` (the code tests
`ref.lower() != "index"`) substitutes the formatted padded sequence
value; any other token fails with the unknown-reference error.  Stated
through `_apply_match` on the single-token template `\(ref)` with the
identity transform. -/
theorem C5_bracket_dispatch (r : Renamer) (m : ReMatch) (idx maxI : Nat)
    (ref : String) (hx : r.xform = "") (h1 : ref.data ≠ [])
    (h2 : ∀ c ∈ ref.data, c ≠ ')' ∧ c ≠ '\\') :
    r.applyMatch m ("\\(" ++ ref ++ ")") idx maxI =
      (match pyParseInt ref with
       | some n =>
         (match m.group n with
          | .ok (some s) => .ok s
          | .ok none => .error (.py .typeError)
          | .error e => .error (.py e))
       | none =>
         if pyLower ref = "index" then r.renderIndex idx maxI
         else .error (.unknownReference ref)) := by
  have hpat : String.mk ('\\' :: '(' :: (ref.data ++ [')'])) = "\\(" ++ ref ++ ")" := by
    apply String.ext
    rw [string_eta, bracketTemplate_data]
  have hkey : r.applyMatch m ("\\(" ++ ref ++ ")") idx maxI =
      r.resolveBracketRef m idx maxI ref := by
    unfold Renamer.applyMatch
    rw [findBackrefs_bracket_template ref (fun c hc => (h2 c hc).2),
        findBrackets_single ref h1 h2]
    dsimp only [applyBackrefs]
    unfold Renamer.applyBrackets
    rw [show String.mk ref.data = ref from rfl, hpat]
    cases hres : r.resolveBracketRef m idx maxI ref with
    | error e => rfl
    | ok repl =>
      dsimp only [Renamer.applyBrackets]
      rw [pyReplace_self ("\\(" ++ ref ++ ")") repl
        (by rw [bracketTemplate_data]; simp)]
      rw [hx]
      rfl
  rw [hkey]
  unfold Renamer.resolveBracketRef
  cases pyParseInt ref with
  | none => rfl
  | some n =>
    dsimp only
    cases m.group n with
    | error e => rfl
    | ok o => cases o <;> rfl

/-- Witness for C5: the token `\(index)` on the default configuration
at position 0 of a 1-entry batch renders `1`. -/
theorem C5_witness :
    ({ } : Renamer).applyMatch ⟨"x", []⟩ ("\\(" ++ "index" ++ ")") 0 1 = .ok "1" :=
  (C5_bracket_dispatch ({ } : Renamer) ⟨"x", []⟩ 0 1 "index" rfl (by decide)
    (by decide)).trans (by decide)

/-- Counterexample to claim C6 as stated: the template `\1` against a
regex with zero capture groups makes the batch fail with an
`IndexError` (which the `except ValueError` handler does not catch)
and status code 2 — not with an UnknownReference validation error and
status code 1.  No file is mutated. -/
theorem C6_counterexample :
    (runRename ({ } : Renamer) rm9 none (.regex "\\1") fs9).status = 2 ∧
    (renameCore ({ } : Renamer) rm9 none (.regex "\\1") fs9).err =
      some (.py .indexError) ∧
    (runRename ({ } : Renamer) rm9 none (.regex "\\1") fs9).effects = [] := by
  decide

/-- Claim C6 as amended: a group number exceeding the capture-group
count raises `IndexError` in `match.group`; any such non-`ValueError`
exception during a run yields status code 2 (not the claimed 1), and
no files are mutated. -/
theorem C6_out_of_range_group :
    (∀ (m : ReMatch) (k : Nat), m.groups.length < k →
      m.group (k : Int) = .error .indexError) ∧
    (∀ (r : Renamer) (rm : String → Option ReMatch)
      (exc : Option (String → Bool)) (mode : Mode) (fs : FS) (e : PyError),
      (renameCore r rm exc mode fs).err = some (.py e) →
      (runRename r rm exc mode fs).status = 2 ∧
      (runRename r rm exc mode fs).effects = []) := by
  constructor
  · intro m k hk
    unfold ReMatch.group
    rw [if_neg (by omega), if_neg (by omega)]
    have hnone : m.groups.get? ((k : Int).toNat - 1) = none := by
      rw [List.get?_eq_none]
      omega
    rw [hnone]
  · intro r rm exc mode fs e h
    refine ⟨?_, renameCore_err_effects r rm exc mode fs (.py e) h⟩
    unfold runRename
    dsimp only
    rw [h]
    rfl

/-- Witness for C6: the concrete out-of-range group and the concrete
status-2 run. -/
theorem C6_witness :
    (⟨"a", []⟩ : ReMatch).group ((1 : Nat) : Int) = .error .indexError ∧
    (runRename ({ } : Renamer) rm9 none (.regex "\\1") fs9).status = 2 ∧
    (runRename ({ } : Renamer) rm9 none (.regex "\\1") fs9).effects = [] :=
  ⟨C6_out_of_range_group.1 ⟨"a", []⟩ 1 (by decide),
   C6_out_of_range_group.2 ({ } : Renamer) rm9 none (.regex "\\1") fs9
     .indexError (by decide)⟩

/-- Counterexample to claim C7 as stated: with `substring_to` equal to
the two-character string backslash-backslash, `re.Pattern.sub`
processes it as a replacement TEMPLATE and inserts a SINGLE backslash
per occurrence — not the literal two-character string the claim
describes. -/
theorem C7_counterexample :
    ({ } : Renamer).applyReplace ⟨"CaSe1e", []⟩ "e" "\\\\" = .ok "CaS\\1\\" ∧
    specLiteralReplace false "e" "\\\\" "CaSe1e" = "CaS\\\\1\\\\" ∧
    ({ } : Renamer).applyReplace ⟨"CaSe1e", []⟩ "e" "\\\\" ≠
      .ok (specLiteralReplace false "e" "\\\\" "CaSe1e") := by decide

/-- Claim C7 as amended: `substring_from` is escaped and matched as a
literal (case-insensitively when configured) and all non-overlapping
occurrences are replaced; `substring_to`, however, is processed as a
regex replacement template (backslash escapes interpreted, group
references checked).  When `substring_to` contains no backslash it IS
inserted literally, and the configured transform is applied
afterwards. -/
theorem C7_literal_replacement (r : Renamer) (m : ReMatch)
    (substring_from substring_to : String) (tf : String → String)
    (htf : TRANSFORM r.xform = some tf)
    (hnb : ∀ c ∈ substring_to.data, c ≠ '\\') :
    r.applyReplace m substring_from substring_to =
      .ok (tf (specLiteralReplace r.case_insensitive substring_from
        substring_to m.group0)) := by
  have hparse : pyParseTemplate substring_to =
      .ok (substring_to.data.map fun c => TmplPart.lit (String.mk [c])) :=
    parseTmplFuel_no_slash substring_to.data hnb
  have hsub : pySubLiteral r.case_insensitive substring_from
      (substring_to.data.map fun c => TmplPart.lit (String.mk [c])) m.group0 =
      specLiteralReplace r.case_insensitive substring_from substring_to m.group0 := by
    unfold specLiteralReplace
    apply pySubLiteral_congr
    intro w
    rw [expandParts_charLits, expandParts_singleLit]
  unfold Renamer.applyReplace
  rw [hparse]
  dsimp only
  rw [hsub, htf]

/-- Witness for C7: case-insensitive replacement of `e` by `ee` in
`CaSe1e` under the upper-case transform. -/
theorem C7_witness :
    ({ case_insensitive := true, xform := "upper" } : Renamer).applyReplace
      ⟨"CaSe1e", []⟩ "e" "ee" = .ok "CASEE1EE" :=
  (C7_literal_replacement ({ case_insensitive := true, xform := "upper" } : Renamer)
    ⟨"CaSe1e", []⟩ "e" "ee" pyUpper rfl (by decide)).trans (by decide)

/-- Claim C8: entries matching the exclusion regex are removed before
enumeration — an excluded entry can be deleted from the listing without
changing anything about the run (it consumes no index slot and does not
count toward the `auto`-width batch total); and the plan is built from
the enumeration of the exclusion-filtered listing, whose length (the
count of that filtered list, not the count of main-regex matches) is
the batch total fed to the index-width computation. -/
theorem C8_exclusion_filtering (r : Renamer) (rm : String → Option ReMatch)
    (exc : String → Bool) (mode : Mode) (l1 l2 : List String) (f : String)
    (pe : String → Bool) (ino : String → Option Nat) (hf : exc f = true) :
    renameCore r rm (some exc) mode ⟨l1 ++ f :: l2, pe, ino⟩ =
      renameCore r rm (some exc) mode ⟨l1 ++ l2, pe, ino⟩ ∧
    ∀ fs : FS, (renameCore r rm (some exc) mode fs).targets =
      (buildPlan r rm mode (filteredFiles fs (some exc)).length
        (filteredFiles fs (some exc)).enum r.targets).1 := by
  constructor
  · have hfil : filteredFiles ⟨l1 ++ f :: l2, pe, ino⟩ (some exc) =
        filteredFiles ⟨l1 ++ l2, pe, ino⟩ (some exc) := by
      unfold filteredFiles
      dsimp only
      simp [List.filter_append, List.filter_cons, hf]
    unfold renameCore
    dsimp only
    rw [hfil]
    rw [sanityCheck_listing_irrelevant (l1 ++ f :: l2) (l1 ++ l2) pe ino]
  · exact renameCore_targets_eq r rm (some exc) mode

/-- Witness for C8: dropping the excluded entry `b` from a concrete
listing leaves the whole run unchanged. -/
theorem C8_witness :
    renameCore ({ } : Renamer) rm8 (some (fun g => g = "b")) (.regex "\\(index)") fs8a =
      renameCore ({ } : Renamer) rm8 (some (fun g => g = "b")) (.regex "\\(index)") fs8b :=
  (C8_exclusion_filtering ({ } : Renamer) rm8 (fun g => g = "b") (.regex "\\(index)")
    ["a"] ["c"] "b" (fun _ => false) (fun _ => none) (by decide)).1

/-- Counterexample to claim C9 as stated: `self.targets` is NOT rebuilt
fresh per invocation.  A run whose single match keeps its own name
succeeds with status 0, but immediately repeating it on the same
Renamer appends into the carried-over plan and fails with a collision
(status 1). -/
theorem C9_counterexample :
    (runRename ({ } : Renamer) rm9 none (.regex "a") fs9).status = 0 ∧
    (runRename (runRename ({ } : Renamer) rm9 none (.regex "a") fs9).renamer
      rm9 none (.regex "a") fs9).status = 1 ∧
    (renameCore (runRename ({ } : Renamer) rm9 none (.regex "a") fs9).renamer
      rm9 none (.regex "a") fs9).err = some (.collision "a" ["a", "a"]) := by
  decide

/-- Claim C9 as amended: the destination-to-sources mapping persists on
the Renamer instance across invocations — each run seeds plan building
with the incoming `targets` attribute and stores the accumulated result
back, mutating nothing else; two runs are therefore independent only
when `targets` is cleared in between (as the selftest harness does), in
which case the first run leaves no trace in the second. -/
theorem C9_plan_persistence (r : Renamer) (rm rm2 : String → Option ReMatch)
    (exc exc2 : Option (String → Bool)) (mode mode2 : Mode) (fs fs2 : FS) :
    (runRename r rm exc mode fs).renamer =
      { r with targets := (renameCore r rm exc mode fs).targets } ∧
    (renameCore r rm exc mode fs).targets =
      (buildPlan r rm mode (filteredFiles fs exc).length
        (filteredFiles fs exc).enum r.targets).1 ∧
    runRename { (runRename r rm exc mode fs).renamer with targets := [] }
        rm2 exc2 mode2 fs2 =
      runRename { r with targets := [] } rm2 exc2 mode2 fs2 := by
  refine ⟨rfl, renameCore_targets_eq r rm exc mode fs, ?_⟩
  rfl

/-- Counterexample to claim C2 as stated: in a batch where two sources
(`a`, `b`) expand to the same destination `t2`, the run fails NOT with
the collision error but with the target-exists error of the
earlier-planned destination `t1` — the two checks run interleaved per
plan entry, not as two whole-plan passes.  (Status is still 1 and
nothing is mutated.) -/
theorem C2_counterexample :
    (renameCore ({ } : Renamer) rmC2 none (.regex "\\1") fsC2).targets =
      [("t1", ["x"]), ("t2", ["a", "b"])] ∧
    (renameCore ({ } : Renamer) rmC2 none (.regex "\\1") fsC2).err =
      some (.targetExists "t1" "x") ∧
    (runRename ({ } : Renamer) rmC2 none (.regex "\\1") fsC2).status = 1 ∧
    (runRename ({ } : Renamer) rmC2 none (.regex "\\1") fsC2).effects = [] := by
  decide

/-- Claim C2 as amended: whenever the collision error is reported, it
names ALL the sources the plan maps to that destination (at least two),
the status code is 1, and nothing is mutated; and whenever ANY plan
destination has two or more sources, the run fails and performs no
renames or copies — though the reported error is the collision only
when no earlier-planned destination fails its pre-existing-target
check first. -/
theorem C2_collision_abort (r : Renamer) (rm : String → Option ReMatch)
    (exc : Option (String → Bool)) (mode : Mode) (fs : FS) :
    (∀ t srcs, (renameCore r rm exc mode fs).err = some (.collision t srcs) →
      (runRename r rm exc mode fs).status = 1 ∧
      (runRename r rm exc mode fs).effects = [] ∧
      (t, srcs) ∈ (renameCore r rm exc mode fs).targets ∧ 1 < srcs.length) ∧
    (∀ t srcs, (t, srcs) ∈ (renameCore r rm exc mode fs).targets →
      1 < srcs.length →
      (renameCore r rm exc mode fs).err.isSome = true ∧
      (renameCore r rm exc mode fs).effects = []) := by
  constructor
  · intro t srcs h
    have heff := renameCore_err_effects r rm exc mode fs _ h
    have hstat : (runRename r rm exc mode fs).status = 1 := by
      unfold runRename
      dsimp only
      rw [h]
      rfl
    have hmem : (t, srcs) ∈ (renameCore r rm exc mode fs).targets ∧
        1 < srcs.length := by
      unfold renameCore at h ⊢
      dsimp only at h ⊢
      cases hb : (buildPlan r rm mode (filteredFiles fs exc).length
          (filteredFiles fs exc).enum r.targets).2 with
      | some e1 =>
        rw [hb] at h
        dsimp only at h
        have he1 : e1 = .collision t srcs := Option.some.inj h
        rcases buildPlan_err_shape r rm mode _ _ _ _ hb with h1 | ⟨pe, h1⟩ | ⟨s1, h1⟩ <;>
          rw [h1] at he1 <;> exact absurd he1 (by simp)
      | none =>
        rw [hb] at h
        dsimp only at h
        cases hs : sanityCheck fs (buildPlan r rm mode (filteredFiles fs exc).length
            (filteredFiles fs exc).enum r.targets).1 with
        | none => rw [hs] at h; dsimp only at h; exact absurd h (by simp)
        | some e2 =>
          rw [hs] at h
          dsimp only at h
          rw [Option.some.inj h] at hs
          exact sanityCheck_collision_mem fs _ t srcs hs
    exact ⟨hstat, by rwa [show (runRename r rm exc mode fs).effects =
      (renameCore r rm exc mode fs).effects from rfl], hmem.1, hmem.2⟩
  · intro t srcs hmem hlen
    cases he : (renameCore r rm exc mode fs).err with
    | some e =>
      exact ⟨rfl, renameCore_err_effects r rm exc mode fs e he⟩
    | none =>
      have hchecked := renameCore_ok_checked r rm exc mode fs he
      have := sanityCheck_none_single fs _ hchecked t srcs hmem
      omega

/-- Witness for C2: a pure collision batch fails with the collision
error naming both sources, status 1, and no effects. -/
theorem C2_witness :
    (runRename ({ } : Renamer) rmCol none (.regex "\\1") fsCol).status = 1 ∧
    (runRename ({ } : Renamer) rmCol none (.regex "\\1") fsCol).effects = [] ∧
    ("t", ["a", "b"]) ∈ (renameCore ({ } : Renamer) rmCol none (.regex "\\1") fsCol).targets ∧
    1 < (["a", "b"] : List String).length :=
  (C2_collision_abort ({ } : Renamer) rmCol none (.regex "\\1") fsCol).1
    "t" ["a", "b"] (by decide)
